import Mathlib

/-!
Shallow embedding of the per-tab error-monitoring engine of the
chrome_errors extension (src/background.js and the unnamed background
variants src/unnamed/part_001, src/unnamed/part_002).

State kept per tab, event normalization as performed by the
chrome.debugger.onEvent listener, attach/detach lifecycle, and
persistence via chrome.storage are translated into pure Lean functions.
Side effects that leave the modelled state (badge rendering, the actual
chrome.* calls) are dropped; the behaviour of the external debugger API
(success or thrown error of attach/sendCommand/detach) is passed in
explicitly as a ProtocolAdapter value.  Timestamps (Date.now()) are
passed in as an explicit `now` argument.
-/

namespace ChromeErrors

/-- Log payload built by the onEvent listener and passed to
setLatest / setUpdateErrorBadge: fields level, source, text, url, line,
column of the JS object literal, before the timestamp is spread on.
JS string fields that can be undefined are Options. -/
structure LogInfo where
  level : String
  source : String
  text : String
  url : String
  line : Option Int
  column : Option Int
deriving Repr, DecidableEq

/-- Stored latest record: the payload plus the capture time, mirroring
`tabState.latest = { ...log, ts: Date.now() }` (src/unnamed/part_001:96,
identically `tabState.newErrorInfo = { ...log, ts: Date.now() }` in
src/background.js:65). -/
structure LogRecord where
  level : String
  source : String
  text : String
  url : String
  line : Option Int
  column : Option Int
  ts : Nat
deriving Repr, DecidableEq

/-- Spread a payload with a timestamp: `{ ...log, ts: now }`. -/
def stamp (l : LogInfo) (now : Nat) : LogRecord :=
  { level := l.level, source := l.source, text := l.text, url := l.url,
    line := l.line, column := l.column, ts := now }

/-- Per-tab session state `{ attached, latest, session, errorCount }`
(src/unnamed/part_001:84; src/background.js:33 names the latest record
newErrorInfo).  The live CDP session handle `{ tabId }` is modelled by
the tab id it wraps. -/
structure TabState where
  attached : Bool
  latest : Option LogRecord
  session : Option Nat
  errorCount : Nat
deriving Repr, DecidableEq

/-- Initial per-tab state created by getTabState / ensureTabState:
`{ attached: false, latest: null, session: null, errorCount: 0 }`. -/
def initTabState : TabState :=
  { attached := false, latest := none, session := none, errorCount := 0 }

/-- setLatest (src/unnamed/part_001:94-110): store the stamped record as
latest and increment errorCount exactly when the payload is error-level
and not system-sourced.  src/background.js:61-77 setUpdateErrorBadge has
the identical state effect (on the field named newErrorInfo there); the
badge rendering and chromeSaveState calls do not touch this state. -/
def setLatest (st : TabState) (log : LogInfo) (now : Nat) : TabState :=
  { st with
    latest := some (stamp log now),
    errorCount :=
      if log.level = "error" ∧ ¬ log.source = "system" then st.errorCount + 1
      else st.errorCount }

/-- setUpdateErrorBadge (src/background.js:61-77), the background.js
variant of setLatest: same state transformation. -/
def setUpdateErrorBadge (st : TabState) (log : LogInfo) (now : Nat) : TabState :=
  setLatest st log now

/-- clearNewErrorInfo (src/background.js:83-87): `tabState.newErrorInfo
= null` followed by a save; no other field is touched. -/
def clearNewErrorInfo (st : TabState) : TabState :=
  { st with latest := none }

/-- resetTabErrorCount (src/background.js:50-53): `tabState.errorCount =
0`; no other field is touched. -/
def resetTabErrorCount (st : TabState) : TabState :=
  { st with errorCount := 0 }

/-- Read-only popup snapshot returned by getPopupState
(src/background.js:95-102) and by the GET_DEBUG_STATE handler of
part_001: `{ tabId, attached: !!attached, newErrorInfo|latest: x || null }`. -/
structure PopupState where
  tabId : Nat
  attached : Bool
  latest : Option LogRecord
deriving Repr, DecidableEq

/-- getPopupState (src/background.js:95-102). -/
def getPopupState (tabId : Nat) (st : TabState) : PopupState :=
  { tabId := tabId, attached := st.attached, latest := st.latest }

/-- Outcome of each chrome.debugger call made during attachToTab /
detachFromTab: none means the awaited call resolved, some m means it
threw with message m (as recovered by `chrome.runtime.lastError?.message
|| e?.message || String(e)`). -/
structure ProtocolAdapter where
  attachErr : Option String
  runtimeErr : Option String
  consoleErr : Option String
  logErr : Option String
  networkErr : Option String
  detachErr : Option String
deriving Repr, DecidableEq

/-- First failure among chrome.debugger.attach and the four sequential
sendCommand enables (Runtime, Console, Log, Network), in the order the
try block of attachToTab awaits them; none when all five resolve. -/
def firstFailure (a : ProtocolAdapter) : Option String :=
  match a.attachErr with
  | some m => some m
  | none =>
    match a.runtimeErr with
    | some m => some m
    | none =>
      match a.consoleErr with
      | some m => some m
      | none =>
        match a.logErr with
        | some m => some m
        | none => a.networkErr

/-- Result object `{ ok, error? }` returned by attachToTab / detachFromTab. -/
structure OpResult where
  ok : Bool
  error : Option String
deriving Repr, DecidableEq

/-- Return value of attachToTab together with the updated per-tab state
and the number of chrome.debugger.attach calls the run issued. -/
structure AttachOutcome where
  res : OpResult
  state : TabState
  attachCalls : Nat
deriving Repr, DecidableEq

/-- attachToTab (src/background.js:183-208, src/unnamed/part_001:128-152):
return `{ ok: true }` untouched if already attached (issuing no attach
call); otherwise attach and enable the four feeds, and only when all
five calls resolve set attached and store the session handle.  A throw
anywhere lands in the catch: `{ ok: false, error: m }` with the state
never mutated. -/
def attachToTab (a : ProtocolAdapter) (tabId : Nat) (st : TabState) : AttachOutcome :=
  if st.attached then
    { res := { ok := true, error := none }, state := st, attachCalls := 0 }
  else
    match firstFailure a with
    | none =>
      { res := { ok := true, error := none },
        state := { st with attached := true, session := some tabId },
        attachCalls := 1 }
    | some m =>
      { res := { ok := false, error := some m }, state := st, attachCalls := 1 }

/-- Return value of detachFromTab together with the updated state. -/
structure DetachOutcome where
  res : OpResult
  state : TabState
deriving Repr, DecidableEq

/-- detachFromTab (src/background.js:215-236, src/unnamed/part_001:159-178):
`{ ok: true }` untouched when not attached or no session; otherwise
chrome.debugger.detach, on success clear attached and session (latest
and errorCount are never written), on throw `{ ok: false, error: m }`
with the state untouched. -/
def detachFromTab (a : ProtocolAdapter) (st : TabState) : DetachOutcome :=
  if st.attached = false ∨ st.session = none then
    { res := { ok := true, error := none }, state := st }
  else
    match a.detachErr with
    | none =>
      { res := { ok := true, error := none },
        state := { st with attached := false, session := none } }
    | some m => { res := { ok := false, error := some m }, state := st }

/-- chrome.debugger.onDetach listener (src/background.js:316-324,
src/unnamed/part_001:258-264): on an external detach notification set
attached to false and clear the session; the reason argument is ignored
and nothing else is written. -/
def onDetach (st : TabState) (reason : String) : TabState :=
  let _ := reason
  { st with attached := false, session := none }

/-- Value of a JS truthiness test on a possibly-undefined string: an
empty string and undefined are both falsy, so `a || b` moves on past
them. -/
def jsTruthy : Option String → Option String
  | none => none
  | some s => if s = "" then none else some s

/-- The `exception` object inside Runtime.exceptionThrown details, with
the fields the listener reads (description, value, className), each
possibly undefined. -/
structure ExceptionValue where
  description : Option String
  value : Option String
  className : Option String
deriving Repr, DecidableEq

/-- `params?.exceptionDetails` of a Runtime.exceptionThrown event, with
the fields the listener reads. -/
structure ExceptionDetails where
  exception : Option ExceptionValue
  text : Option String
  url : Option String
  scriptId : Option String
  lineNumber : Option Int
  columnNumber : Option Int
deriving Repr, DecidableEq

/-- The `{}` fallback used when params or exceptionDetails is missing. -/
def emptyExceptionDetails : ExceptionDetails :=
  { exception := none, text := none, url := none, scriptId := none,
    lineNumber := none, columnNumber := none }

/-- `d?.exception?.description` as read by the listener. -/
def exceptionDescription (d : ExceptionDetails) : Option String :=
  match d.exception with
  | none => none
  | some ex => ex.description

/-- `d?.exception && (d.exception.value || d.exception.className)` as a
truthy-or-absent string. -/
def valueOrClassName (d : ExceptionDetails) : Option String :=
  match d.exception with
  | none => none
  | some ex =>
    match jsTruthy ex.value with
    | some s => some s
    | none => jsTruthy ex.className

/-- Text of a Runtime.exceptionThrown event (src/background.js:252-253):
`d?.exception?.description || d?.text || (d?.exception &&
(d.exception.value || d.exception.className)) || "Exception thrown"`. -/
def exceptionText (d : ExceptionDetails) : String :=
  match jsTruthy (exceptionDescription d) with
  | some s => s
  | none =>
    match jsTruthy d.text with
    | some s => s
    | none =>
      match valueOrClassName d with
      | some s => s
      | none => "Exception thrown"

/-- Payload built for a Runtime.exceptionThrown event
(src/background.js:250-262): level error, source exception, best-effort
text, `url: d.url || d?.scriptId || ""`, line/column copied. -/
def normalizeException (d : ExceptionDetails) : LogInfo :=
  { level := "error", source := "exception", text := exceptionText d,
    url :=
      match jsTruthy d.url with
      | some u => u
      | none =>
        match jsTruthy d.scriptId with
        | some s => s
        | none => "",
    line := d.lineNumber, column := d.columnNumber }

/-- One element of `params.args` of Runtime.consoleAPICalled, with the
fields read by `a?.value ?? a?.description ?? a?.type`; value and
description are nullish-coalesced (an empty string is kept), type is
always present on a RemoteObject. -/
structure RemoteArg where
  value : Option String
  description : Option String
  type : String
deriving Repr, DecidableEq

/-- `a?.value ?? a?.description ?? a?.type` for one console argument. -/
def consoleArgText (a : RemoteArg) : String :=
  match a.value with
  | some s => s
  | none =>
    match a.description with
    | some s => s
    | none => a.type

/-- Payload built for a Runtime.consoleAPICalled event
(src/background.js:266-278): type defaults to "log", level error /
warning / info by type, text is the space-joined argument texts. -/
def normalizeConsole (typeOpt : Option String) (argsOpt : Option (List RemoteArg)) : LogInfo :=
  let ty :=
    match jsTruthy typeOpt with
    | some t => t
    | none => "log"
  { level := if ty = "error" then "error" else if ty = "warning" then "warning" else "info",
    source := "console",
    text := String.intercalate " " ((argsOpt.getD []).map consoleArgText),
    url := "", line := none, column := none }

/-- `params?.entry` of a Log.entryAdded event, with the fields the
listener reads. -/
structure LogEntry where
  level : Option String
  source : Option String
  text : Option String
  url : Option String
  lineNumber : Option Int
deriving Repr, DecidableEq

/-- The `{}` fallback used when params or entry is missing. -/
def emptyLogEntry : LogEntry :=
  { level := none, source := none, text := none, url := none, lineNumber := none }

/-- Payload built for a Log.entryAdded event (src/background.js:282-293):
level/source/text/url copied with `||` defaults info, "log", "", "". -/
def normalizeLogEntry (e : LogEntry) : LogInfo :=
  { level := (jsTruthy e.level).getD "info",
    source := (jsTruthy e.source).getD "log",
    text := (jsTruthy e.text).getD "",
    url := (jsTruthy e.url).getD "",
    line := e.lineNumber, column := none }

/-- `params` of a Network.loadingFailed event, with the fields the
listener reads. -/
structure NetworkFail where
  netType : Option String
  blockedReason : Option String
  errorText : Option String
deriving Repr, DecidableEq

/-- The `{}` fallback used when params is missing. -/
def emptyNetworkFail : NetworkFail :=
  { netType := none, blockedReason := none, errorText := none }

/-- Payload built for a Network.loadingFailed event
(src/background.js:296-309), produced only when type is XHR or Fetch or
a truthy blockedReason or errorText is present. -/
def normalizeNetwork (e : NetworkFail) : Option LogInfo :=
  if e.netType = some "XHR" ∨ e.netType = some "Fetch"
      ∨ (jsTruthy e.blockedReason).isSome ∨ (jsTruthy e.errorText).isSome then
    some { level := "error", source := "network",
           text := "Network " ++ (jsTruthy e.netType).getD "" ++ " failed: "
             ++ ((jsTruthy e.errorText).getD ((jsTruthy e.blockedReason).getD "unknown")),
           url := "", line := none, column := none }
  else none

/-- Raw protocol event delivered to the chrome.debugger.onEvent listener
for a given tab: the four handled methods with the parameter parts the
listener reads (each possibly missing, covered by `|| {}`), and a
catch-all for every other method, which the switch ignores. -/
inductive RawEvent where
  | exceptionThrown (d : Option ExceptionDetails)
  | consoleAPICalled (typeOpt : Option String) (argsOpt : Option (List RemoteArg))
  | logEntryAdded (entry : Option LogEntry)
  | networkLoadingFailed (e : Option NetworkFail)
  | otherMethod
deriving Repr, DecidableEq

/-- Normalization step of the onEvent listener: the payload passed to
setLatest, or none when the event is ignored. -/
def normalize : RawEvent → Option LogInfo
  | .exceptionThrown d => some (normalizeException (d.getD emptyExceptionDetails))
  | .consoleAPICalled t a => some (normalizeConsole t a)
  | .logEntryAdded e => some (normalizeLogEntry (e.getD emptyLogEntry))
  | .networkLoadingFailed e => normalizeNetwork (e.getD emptyNetworkFail)
  | .otherMethod => none

/-- Effect of the chrome.debugger.onEvent listener
(src/background.js:244-311) on one tab state: run normalization and, if
the event qualifies, apply setLatest with the current time. -/
def handleEvent (st : TabState) (ev : RawEvent) (now : Nat) : TabState :=
  match normalize ev with
  | some log => setLatest st log now
  | none => st

/-- Entry of the persisted `debuggerState` object: the per-tab state
minus the stripped session field (`const { session, ...saveableState }`,
src/background.js:112). -/
structure SavedTabState where
  attached : Bool
  latest : Option LogRecord
  errorCount : Nat
deriving Repr, DecidableEq

/-- What chromeSaveState writes for one tab. -/
def saveEntry (st : TabState) : SavedTabState :=
  { attached := st.attached, latest := st.latest, errorCount := st.errorCount }

/-- What chromeLoadState restores for one tab: `{ ...state, attached:
false, session: null }` (src/background.js:132-136). -/
def restoreEntry (s : SavedTabState) : TabState :=
  { attached := false, latest := s.latest, session := none,
    errorCount := s.errorCount }

/-- The tabStates / stateByTabId Map, as an association list in
insertion order with unique keys. -/
abbrev Registry := List (Nat × TabState)

/-- Lookup in an association list, mirroring Map.get semantics. -/
def lookupId {β : Type} (id : Nat) : List (Nat × β) → Option β
  | [] => none
  | p :: t => if p.1 = id then some p.2 else lookupId id t

/-- Map.set semantics: replace in place when the key exists, otherwise
append at the end. -/
def setEntry (reg : Registry) (id : Nat) (st : TabState) : Registry :=
  if (lookupId id reg).isSome then
    reg.map fun p => if p.1 = id then (id, st) else p
  else reg ++ [(id, st)]

/-- setChromeSaveState / chromeSaveState (src/background.js:108-120):
the object written to chrome.storage.local under debuggerState, each
entry stripped of its session field. -/
def chromeSaveState (reg : Registry) : List (Nat × SavedTabState) :=
  reg.map fun p => (p.1, saveEntry p.2)

/-- chromeLoadState (src/background.js:125-143): read debuggerState
(defaulting to `{}` when absent) and Map.set every restored entry, with
attached forced to false and session cleared; `reg` is the map contents
before the call (empty at startup). -/
def chromeLoadState (reg : Registry) (storage : Option (List (Nat × SavedTabState))) : Registry :=
  (storage.getD []).foldl (fun r p => setEntry r p.1 (restoreEntry p.2)) reg

/-- One per-tab operation of the engine, with the external inputs it
depends on passed as data. -/
inductive Op where
  | getOrCreate
  | attachOp (a : ProtocolAdapter) (tabId : Nat)
  | detachOp (a : ProtocolAdapter)
  | externalDetach (reason : String)
  | loadEntry (s : SavedTabState)
  | ingest (ev : RawEvent) (now : Nat)

/-- Effect of one operation on a tab state that already exists in the
registry (getOrCreate is then the identity; loadEntry overwrites the
entry with the restored one, as Map.set does). -/
def step (st : TabState) : Op → TabState
  | .getOrCreate => st
  | .attachOp a id => (attachToTab a id st).state
  | .detachOp a => (detachFromTab a st).state
  | .externalDetach r => onDetach st r
  | .loadEntry s => restoreEntry s
  | .ingest ev now => handleEvent st ev now

/-- State reached from the freshly created entry by a sequence of
operations. -/
def run (ops : List Op) : TabState := ops.foldl step initTabState

/-- The spec scenario events: exception "TypeError: x" twice, then
console.error "boom". -/
def exnTypeErrorX : RawEvent :=
  .exceptionThrown (some { emptyExceptionDetails with
    exception := some { description := some "TypeError: x", value := none, className := none } })

/-- The console.error "boom" event of the spec scenario. -/
def consoleErrorBoom : RawEvent :=
  .consoleAPICalled (some "error")
    (some [{ value := some "boom", description := none, type := "string" }])

/-- An attached session with no recorded error yet, the starting point
of the spec scenario. -/
def scenarioStart : TabState :=
  { attached := true, latest := none, session := some 1, errorCount := 0 }

/-- Final state of the spec scenario under the onEvent listener. -/
def scenarioEnd : TabState :=
  [exnTypeErrorX, exnTypeErrorX, consoleErrorBoom].foldl
    (fun st ev => handleEvent st ev 0) scenarioStart

/-- An adapter whose chrome.debugger.attach call throws. -/
def failAdapter : ProtocolAdapter :=
  { attachErr := some "Cannot attach", runtimeErr := none, consoleErr := none,
    logErr := none, networkErr := none, detachErr := none }

/-- An adapter on which every chrome.debugger call resolves. -/
def okAdapter : ProtocolAdapter :=
  { attachErr := none, runtimeErr := none, consoleErr := none,
    logErr := none, networkErr := none, detachErr := none }

/-- A concrete error-level console payload. -/
def c1Log : LogInfo :=
  { level := "error", source := "console", text := "boom", url := "",
    line := none, column := none }

/-- A detached state with a nonzero error count. -/
def c2State : TabState :=
  { attached := false, latest := none, session := none, errorCount := 5 }

/-- A concrete two-tab registry with distinct keys. -/
def c4Reg : Registry :=
  [(1, { attached := true, latest := none, session := some 1, errorCount := 2 }),
   (2, initTabState)]

/-- An attached session with no recorded error. -/
def c8State : TabState :=
  { attached := true, latest := none, session := some 7, errorCount := 0 }

/-- An attached session whose stored latest record is error-level. -/
def c10State : TabState :=
  { attached := true,
    latest := some { level := "error", source := "exception", text := "old failure",
                     url := "", line := none, column := none, ts := 0 },
    session := some 1, errorCount := 1 }

/-- The payload the listener builds for a plain console.log call. -/
def c10Log : LogInfo :=
  { level := "info", source := "console", text := "hello", url := "",
    line := none, column := none }

/-- A plain console.log event with one string argument. -/
def c10Event : RawEvent :=
  .consoleAPICalled (some "log")
    (some [{ value := some "hello", description := none, type := "string" }])

/-- Helper: looking a key up after mapping a key-preserving function
over an association list maps the function over the lookup result. -/
theorem lookupId_map {β γ : Type} (f : β → γ) (id : Nat) (l : List (Nat × β)) :
    lookupId id (l.map fun p => (p.1, f p.2)) = (lookupId id l).map f := by
  induction l with
  | nil => rfl
  | cons p t ih => by_cases h : p.1 = id <;> simp [lookupId, h, ih]

/-- Helper: a key absent from the first list is looked up in the second. -/
theorem lookupId_append_none {β : Type} (id : Nat) (l1 l2 : List (Nat × β))
    (h : lookupId id l1 = none) :
    lookupId id (l1 ++ l2) = lookupId id l2 := by
  induction l1 with
  | nil => rfl
  | cons p t ih =>
    by_cases hp : p.1 = id
    · simp [lookupId, hp] at h
    · simp only [List.cons_append, lookupId, if_neg hp] at h ⊢
      exact ih h

/-- Helper: Map.set with a fresh key appends the entry. -/
theorem setEntry_fresh (reg : Registry) (id : Nat) (st : TabState)
    (h : lookupId id reg = none) :
    setEntry reg id st = reg ++ [(id, st)] := by
  simp [setEntry, h]

/-- Helper: restoring a list of saved entries with keys fresh for the
accumulator and mutually distinct appends the restored entries in order. -/
theorem loadFold_fresh (l : List (Nat × SavedTabState)) :
    ∀ acc : Registry, (∀ p ∈ l, lookupId p.1 acc = none) → (l.map Prod.fst).Nodup →
    l.foldl (fun r p => setEntry r p.1 (restoreEntry p.2)) acc
      = acc ++ l.map fun p => (p.1, restoreEntry p.2) := by
  induction l with
  | nil => intro acc _ _; simp
  | cons p t ih =>
    intro acc hfresh hnd
    have hnd1 : p.1 ∉ t.map Prod.fst := (List.nodup_cons.mp (by simpa using hnd)).1
    have hnd2 : (t.map Prod.fst).Nodup := (List.nodup_cons.mp (by simpa using hnd)).2
    simp only [List.foldl_cons, List.map_cons]
    rw [setEntry_fresh acc p.1 (restoreEntry p.2) (hfresh p (by simp))]
    rw [ih (acc ++ [(p.1, restoreEntry p.2)]) ?fresh hnd2]
    · simp
    case fresh =>
      intro q hq
      rw [lookupId_append_none q.1 acc _ (hfresh q (by simp [hq]))]
      have hne : ¬ p.1 = q.1 := by
        intro hEq
        exact hnd1 (hEq ▸ List.mem_map_of_mem Prod.fst hq)
      simp [lookupId, hne]

/-- Helper: chromeSaveState preserves the key list. -/
theorem saveKeys (reg : Registry) :
    (chromeSaveState reg).map Prod.fst = reg.map Prod.fst := by
  simp [chromeSaveState, List.map_map, Function.comp]

/-- C1 counterexample: the claimed deduplication does not exist in the
code.  Running the spec scenario (exception "TypeError: x" twice, then
console.error "boom") through the onEvent listener from an attached
state ends with errorCount 3, not the claimed 2: the second identical
exception is counted again.  latest.text and latest.source do match the
claim. -/
theorem C1_counterexample :
    ¬ scenarioEnd.errorCount = 2
    ∧ scenarioEnd.errorCount = 3
    ∧ Option.map LogRecord.text scenarioEnd.latest = some "boom"
    ∧ Option.map LogRecord.source scenarioEnd.latest = some "console" := by
  decide

/-- C1 (amended): the state carries no deduplication signature; every
ingested error-level non-system record increments errorCount by exactly
1 and overwrites latest, whether or not its text repeats the previous
record, so the spec scenario ends with errorCount 3,
latest.text "boom" and latest.source "console". -/
theorem C1_no_dedup (st : TabState) (log : LogInfo) (now : Nat)
    (h1 : log.level = "error") (h2 : ¬ log.source = "system") :
    (setLatest st log now).errorCount = st.errorCount + 1
    ∧ (setLatest st log now).latest = some (stamp log now)
    ∧ scenarioEnd.errorCount = 3
    ∧ Option.map LogRecord.text scenarioEnd.latest = some "boom"
    ∧ Option.map LogRecord.source scenarioEnd.latest = some "console" := by
  refine ⟨?_, rfl, by decide, by decide, by decide⟩
  simp [setLatest, h1, h2]

/-- C1 witness: C1_no_dedup applied to a concrete error-level console
record ingested into the fresh state. -/
theorem C1_no_dedup_witness :
    (setLatest initTabState c1Log 0).errorCount = initTabState.errorCount + 1
    ∧ (setLatest initTabState c1Log 0).latest = some (stamp c1Log 0)
    ∧ scenarioEnd.errorCount = 3
    ∧ Option.map LogRecord.text scenarioEnd.latest = some "boom"
    ∧ Option.map LogRecord.source scenarioEnd.latest = some "console" :=
  C1_no_dedup initTabState c1Log 0 rfl (by decide)

/-- C2 counterexample: clearNewErrorInfo on a state with errorCount 5
leaves errorCount at 5, refuting the claim that the clear operation
resets errorCount to 0 in the same single operation. -/
theorem C2_counterexample :
    ¬ (clearNewErrorInfo c2State).errorCount = 0
    ∧ (clearNewErrorInfo c2State).errorCount = 5
    ∧ (clearNewErrorInfo c2State).latest = none := by
  decide

/-- C2 (amended): clearing is split across two operations, neither of
which does both: clearNewErrorInfo resets latest to null and leaves
errorCount (and attached, session) unchanged, while resetTabErrorCount
resets only errorCount to 0 and leaves latest unchanged; there is no
lastErrorSignature field in the state at all. -/
theorem C2_clear_split (st : TabState) :
    (clearNewErrorInfo st).latest = none
    ∧ (clearNewErrorInfo st).errorCount = st.errorCount
    ∧ (clearNewErrorInfo st).attached = st.attached
    ∧ (clearNewErrorInfo st).session = st.session
    ∧ (resetTabErrorCount st).errorCount = 0
    ∧ (resetTabErrorCount st).latest = st.latest
    ∧ (resetTabErrorCount st).attached = st.attached :=
  ⟨rfl, rfl, rfl, rfl, rfl, rfl, rfl⟩

/-- C3 counterexample: a failing chrome.debugger.attach makes
attachToTab return ok false, but no error-level system-source LogRecord
is recorded: latest is still none afterwards, refuting that part of the
claim. -/
theorem C3_counterexample :
    (attachToTab failAdapter 1 initTabState).res.ok = false
    ∧ (attachToTab failAdapter 1 initTabState).state.latest = none
    ∧ (attachToTab failAdapter 1 initTabState).state.attached = false := by
  decide

/-- C3 (amended): when the underlying attach or any of the four
feed-enable steps fails on a non-attached session, ATTACH returns
ok false with the failure message, and the entry is left completely
unchanged: attached stays false, no handle is retained, errorCount and
latest keep their prior values — but no system LogRecord describing the
failure is recorded. -/
theorem C3_attach_failure (a : ProtocolAdapter) (tabId : Nat) (st : TabState) (m : String)
    (h1 : st.attached = false) (h2 : firstFailure a = some m) :
    (attachToTab a tabId st).res.ok = false
    ∧ (attachToTab a tabId st).res.error = some m
    ∧ (attachToTab a tabId st).state = st := by
  simp [attachToTab, h1, h2]

/-- C3 witness: C3_attach_failure applied to the failing adapter on the
fresh state. -/
theorem C3_attach_failure_witness :
    (attachToTab failAdapter 1 initTabState).res.ok = false
    ∧ (attachToTab failAdapter 1 initTabState).res.error = some "Cannot attach"
    ∧ (attachToTab failAdapter 1 initTabState).state = initTabState :=
  C3_attach_failure failAdapter 1 initTabState "Cannot attach" rfl rfl

/-- C4: for a registry with distinct keys, loading the saved snapshot
into an empty map yields, at every key, exactly the original entry with
attached forced to false and the session handle cleared; loading from
absent storage yields the empty mapping rather than an error. -/
theorem C4_load_save_roundtrip (reg : Registry) (id : Nat)
    (h : (reg.map Prod.fst).Nodup) :
    lookupId id (chromeLoadState [] (some (chromeSaveState reg)))
      = (lookupId id reg).map (fun st => { st with attached := false, session := none })
    ∧ chromeLoadState [] none = ([] : Registry) := by
  refine ⟨?_, rfl⟩
  have h1 : chromeLoadState [] (some (chromeSaveState reg))
      = (chromeSaveState reg).map fun p => (p.1, restoreEntry p.2) := by
    have hk : ((chromeSaveState reg).map Prod.fst).Nodup := by rw [saveKeys]; exact h
    have := loadFold_fresh (chromeSaveState reg) [] (fun p _ => rfl) hk
    simpa [chromeLoadState] using this
  rw [h1, lookupId_map]
  show ((lookupId id (List.map (fun p => (p.1, saveEntry p.2)) reg)).map restoreEntry) = _
  rw [lookupId_map]
  cases lookupId id reg <;> rfl

/-- C4 witness: the round trip on a concrete two-tab registry, looked
up at the attached tab. -/
theorem C4_witness :
    lookupId 1 (chromeLoadState [] (some (chromeSaveState c4Reg)))
      = (lookupId 1 c4Reg).map (fun st => { st with attached := false, session := none })
    ∧ chromeLoadState [] none = ([] : Registry) :=
  C4_load_save_roundtrip c4Reg 1 (by decide)

/-- C5: for an attached session (with its handle present) whose
protocol detach resolves, detach followed immediately by a query
returns attached false together with exactly the latest record held
before the detach, and errorCount is also unchanged: detachFromTab
never writes latest or errorCount (on a protocol failure it leaves the
whole state untouched). -/
theorem C5_detach_then_query (a : ProtocolAdapter) (st : TabState) (s tabId : Nat)
    (h1 : st.attached = true) (h2 : st.session = some s) (h3 : a.detachErr = none) :
    (getPopupState tabId (detachFromTab a st).state).attached = false
    ∧ (getPopupState tabId (detachFromTab a st).state).latest = st.latest
    ∧ (detachFromTab a st).state.errorCount = st.errorCount
    ∧ (detachFromTab a st).res.ok = true := by
  simp [detachFromTab, h1, h2, h3, getPopupState]

/-- C5 witness: C5_detach_then_query on the attached scenario state
with an adapter whose detach resolves. -/
theorem C5_witness :
    (getPopupState 1 (detachFromTab okAdapter scenarioStart).state).attached = false
    ∧ (getPopupState 1 (detachFromTab okAdapter scenarioStart).state).latest = scenarioStart.latest
    ∧ (detachFromTab okAdapter scenarioStart).state.errorCount = scenarioStart.errorCount
    ∧ (detachFromTab okAdapter scenarioStart).res.ok = true :=
  C5_detach_then_query okAdapter scenarioStart 1 1 rfl rfl rfl

/-- C6: attach on an already-attached session is idempotent: it returns
ok true with no error, leaves every field of the state unchanged, and
issues zero attach calls to the Protocol Adapter. -/
theorem C6_attach_idempotent (a : ProtocolAdapter) (tabId : Nat) (st : TabState)
    (h : st.attached = true) :
    attachToTab a tabId st
      = { res := { ok := true, error := none }, state := st, attachCalls := 0 } := by
  simp [attachToTab, h]

/-- C6 witness: C6_attach_idempotent on the attached scenario state,
with an adapter that would fail if it were consulted. -/
theorem C6_witness :
    attachToTab failAdapter 3 scenarioStart
      = { res := { ok := true, error := none }, state := scenarioStart, attachCalls := 0 } :=
  C6_attach_idempotent failAdapter 3 scenarioStart rfl

/-- C7: a normalized exception event always has level error and source
exception; its text is exactly the priority chain description, then
detail text, then exception value or class name, with literal
"Exception thrown" when all of them are absent (JS-falsy), as the
closed instance on the empty details shows. -/
theorem C7_exception_text (d : ExceptionDetails) :
    (normalizeException d).level = "error"
    ∧ (normalizeException d).source = "exception"
    ∧ (normalizeException d).text
        = (jsTruthy (exceptionDescription d)).getD
            ((jsTruthy d.text).getD ((valueOrClassName d).getD "Exception thrown"))
    ∧ (normalizeException emptyExceptionDetails).text = "Exception thrown" := by
  refine ⟨rfl, rfl, ?_, rfl⟩
  show exceptionText d = _
  unfold exceptionText
  cases jsTruthy (exceptionDescription d) <;> cases jsTruthy d.text <;>
    cases valueOrClassName d <;> rfl

/-- C8 counterexample: the onDetach listener on an attached session
transitions to detached, but appends no warning-level system record
citing the reason: latest is still none after the notification with
reason "canceled_by_user". -/
theorem C8_counterexample :
    (onDetach c8State "canceled_by_user").latest = none
    ∧ (onDetach c8State "canceled_by_user").attached = false
    ∧ (onDetach c8State "canceled_by_user").session = none := by
  decide

/-- C8 (amended): an external detach notification sets attached to
false and clears the session handle, ignoring the disconnect reason
entirely; latest and errorCount are left unchanged and no LogRecord is
appended. -/
theorem C8_external_detach (st : TabState) (reason : String) :
    onDetach st reason = { st with attached := false, session := none }
    ∧ (onDetach st reason).latest = st.latest
    ∧ (onDetach st reason).errorCount = st.errorCount :=
  ⟨rfl, rfl, rfl⟩

/-- Helper: every single operation preserves the handle invariant. -/
theorem inv_step (st : TabState) (op : Op) (h : st.attached = st.session.isSome) :
    (step st op).attached = ((step st op).session).isSome := by
  cases op with
  | getOrCreate => exact h
  | attachOp a id =>
    simp only [step, attachToTab]
    split
    · exact h
    · split
      · rfl
      · exact h
  | detachOp a =>
    simp only [step, detachFromTab]
    split
    · exact h
    · split
      · rfl
      · exact h
  | externalDetach r => rfl
  | loadEntry s => rfl
  | ingest ev now =>
    simp only [step, handleEvent]
    split
    · exact h
    · exact h

/-- Helper: the handle invariant propagates along any operation list. -/
theorem inv_foldl (ops : List Op) :
    ∀ st : TabState, st.attached = st.session.isSome →
      (ops.foldl step st).attached = ((ops.foldl step st).session).isSome := by
  induction ops with
  | nil => intro st h; exact h
  | cons op t ih => intro st h; exact ih (step st op) (inv_step st op h)

/-- C9: in every state reachable from the initial state (attached
false, session null) by any sequence of getOrCreate, attach, detach,
external detach notification, per-entry load and event ingestion, the
attached flag equals the presence of the live session handle — so
attached true implies a handle is present and attached false implies it
is absent. -/
theorem C9_attached_iff_handle (ops : List Op) :
    (run ops).attached = ((run ops).session).isSome :=
  inv_foldl ops initTabState rfl

/-- C10: whatever record the listener's normalization accepts — at any
level, including plain info console output — unconditionally overwrites
latest with the newly stamped record. -/
theorem C10_latest_overwrite (st : TabState) (ev : RawEvent) (log : LogInfo) (now : Nat)
    (h : normalize ev = some log) :
    (handleEvent st ev now).latest = some (stamp log now) := by
  simp [handleEvent, h, setLatest]

/-- C10 witness: an info-level console.log event displaces the
error-level record previously stored in latest. -/
theorem C10_witness :
    (handleEvent c10State c10Event 5).latest = some (stamp c10Log 5) :=
  C10_latest_overwrite c10State c10Event c10Log 5 (by decide)

end ChromeErrors
